import Mathlib

/-!
Verification of the intent normalization & multi-layer validation pipeline
of `server/app.py` (CFD orchestrator).  Python JSON values are embedded as
the inductive `Json` below; Python dicts are ordered association lists
(insertion order preserved, keys unique in any value produced by
`json.loads`, captured by the well-formedness predicate `Json.wf`).
Python's json module keeps `int` and `float` distinct, hence the two
numeric constructors.
-/

namespace CFD

/-- JSON values as produced by Python's `json.loads`. -/
inductive Json where
  | null
  | bool (b : Bool)
  | int (n : Int)
  | float (q : Rat)
  | str (s : String)
  | arr (items : List Json)
  | obj (fields : List (String × Json))

/-- A Python dict: ordered key/value pairs. -/
abbrev JObj := List (String × Json)

/-- `d.get(key)`: first binding of `key` (Python dicts have unique keys). -/
def lookupKey : JObj → String → Option Json
  | [], _ => none
  | (k, v) :: rest, key => if k = key then some v else lookupKey rest key

/-- `d[key] = val`: replace the binding in place (preserving its position,
as CPython dict assignment does) or append a new binding at the end. -/
def setKey : JObj → String → Json → JObj
  | [], key, val => [(key, val)]
  | (k, v) :: rest, key, val =>
      if k = key then (k, val) :: rest else (k, v) :: setKey rest key val

/-- `key in d` for a Python dict. -/
def containsKey : JObj → String → Bool
  | [], _ => false
  | (k, _) :: rest, key => k = key || containsKey rest key

mutual
/-- Values reachable from `json.loads`: every object has pairwise distinct
keys (Python dicts cannot hold duplicate keys). -/
def Json.wf : Json → Bool
  | .obj f => Json.wfFields f
  | .arr xs => Json.wfArr xs
  | _ => true

def Json.wfFields : List (String × Json) → Bool
  | [] => true
  | (k, v) :: rest => !containsKey rest k && v.wf && Json.wfFields rest

def Json.wfArr : List Json → Bool
  | [] => true
  | x :: rest => x.wf && Json.wfArr rest
end

/-- `isinstance(x, dict)`. -/
def Json.isObj : Json → Bool
  | .obj _ => true
  | _ => false

/-- `json.loads(json.dumps(data))` (`deep_copy_json` in `app.py`): the
serialization round trip is the identity on JSON values, and the embedding
has no aliasing, so the deep copy is the identity. -/
def deep_copy_json (data : Json) : Json := data

mutual
/-- The inner `_merge(dst, src)` of `merge_with_template`: for each key of
`src` in order, recurse when both sides hold dicts, otherwise overwrite. -/
def mergeInto : JObj → JObj → JObj
  | dst, [] => dst
  | dst, (k, v) :: rest => mergeInto (setKey dst k (mergeVal (lookupKey dst k) v)) rest

/-- The value stored for one key by `_merge`: recurse iff both the existing
destination value and the override value are dicts. -/
def mergeVal : Option Json → Json → Json
  | some (Json.obj dsub), Json.obj ssub => Json.obj (mergeInto dsub ssub)
  | _, v => v
end

/-- `merge_with_template(template_obj, overrides)`: starts from a deep copy
of the template (`deep_copy_json` is the identity in this embedding) and,
when `overrides` is a dict, merges it in; any non-dict `overrides` yields
the unmodified copy. -/
def merge_with_template (template_obj : JObj) (overrides : Json) : JObj :=
  match overrides with
  | Json.obj src => mergeInto template_obj src
  | _ => template_obj

/-- Presence of a (nested, dict-keyed) path in a JSON value. -/
def hasPathJ : Json → List String → Bool
  | _, [] => true
  | Json.obj f, k :: ks =>
      (match lookupKey f k with
       | some v => hasPathJ v ks
       | none => false)
  | _, _ :: _ => false

/-- The overrides value never clobbers the path `p`: wherever a proper
prefix of `p` is present in the overrides, its value is again a dict. -/
def overridesSafe : Json → List String → Bool
  | _, [] => true
  | Json.obj f, k :: ks =>
      (match lookupKey f k with
       | none => true
       | some (Json.obj g) => overridesSafe (Json.obj g) ks
       | some _ => false)
  | _, _ :: _ => true

/-! ### Python value semantics used by the code -/

/-- Python truthiness of a JSON-decoded value. -/
def Json.truthy : Json → Bool
  | .null => false
  | .bool b => b
  | .int n => n != 0
  | .float q => q != 0
  | .str s => !s.isEmpty
  | .arr xs => !xs.isEmpty
  | .obj f => !f.isEmpty

/-- The `x or default` idiom applied to `d.get(k)` (absent keys give `None`,
which is falsy). -/
def truthyOr (v : Option Json) (dflt : Json) : Json :=
  match v with
  | some x => if x.truthy then x else dflt
  | none => dflt

/-- Python `str()` of a JSON-decoded value.  Strings render as themselves;
`None`/`True`/`False`/ints as in Python.  The code under verification only
ever tests renderings of non-string containers and floats for emptiness
after `strip()` (they are never empty), so their digits/item lists are not
reproduced exactly. -/
def pyStr : Json → String
  | .null => "None"
  | .bool true => "True"
  | .bool false => "False"
  | .int n => toString n
  | .float q => toString q
  | .str s => s
  | .arr _ => "[…]"
  | .obj _ => "{…}"

/-- Python `str.strip()`: drop leading and trailing whitespace
(implemented over the character list so it evaluates by reduction). -/
def pyStrip (s : String) : String :=
  ⟨((s.data.dropWhile Char.isWhitespace).reverse.dropWhile Char.isWhitespace).reverse⟩

/-- `isinstance(x, (int, float))` — Python `bool` is a subclass of `int`. -/
def isPyNumber : Json → Bool
  | .int _ => true
  | .float _ => true
  | .bool _ => true
  | _ => false

/-- `isinstance(x, int)` — again `bool` counts. -/
def isPyInt : Json → Bool
  | .int _ => true
  | .bool _ => true
  | _ => false

/-- Integer value of a Python `int` (True = 1, False = 0). -/
def pyIntVal : Json → Int
  | .int n => n
  | .bool b => if b then 1 else 0
  | _ => 0

/-! ### Dimension mode enforcement (`app.py` lines 265–394) -/

def VALID_DIMENSION_MODES : List String := ["3D", "2D_extruded"]

/-- `normalize_dimension_mode(raw)`. -/
def normalize_dimension_mode : Option String → Option String
  | none => none
  | some raw =>
      let value := pyStrip raw
      if VALID_DIMENSION_MODES.contains value then some value else none

/-- `parent.setdefault(key, {})` followed by use of the result as a dict:
yields the child's fields together with the updated parent, or `none` when
an existing value is not a dict (so the next attribute access on it raises
and the enclosing `try` swallows the error).  A key can only be freshly
inserted when it was absent, in which case the child is `{}` and cannot
itself fail later, which is why `none` always means "nothing was mutated
at this level". -/
def ensureObj (o : JObj) (k : String) : Option (JObj × JObj) :=
  match lookupKey o k with
  | none => some ([], setKey o k (Json.obj []))
  | some (Json.obj c) => some (c, o)
  | some _ => none

/-- `(template_obj.get("meshing") or {}).get(k1, {}).get(k2, {})` — the
second and third `.get` raise `AttributeError` when their receiver is not
a dict; `none` models that raise. -/
def templateChainGet (template_obj : JObj) (k1 k2 : String) : Option Json :=
  let m := truthyOr (lookupKey template_obj "meshing") (Json.obj [])
  match m with
  | Json.obj mf =>
      (match (lookupKey mf k1).getD (Json.obj []) with
       | Json.obj bf => some ((lookupKey bf k2).getD (Json.obj []))
       | _ => none)
  | _ => none

/-- The numeric fallback chain of `enforce_dimension_mode`: take the
primary candidate if numeric, else the secondary if numeric, else the
literal default `0.002`. -/
def numFallback (primary secondary : Option Json) : Json :=
  let ok := match primary with | some v => isPyNumber v | none => false
  let fb2 := if ok then primary else secondary
  match fb2 with
  | some v => if isPyNumber v then v else Json.float (0.002 : Rat)
  | none => Json.float (0.002 : Rat)

/-- Body of `enforce_dimension_mode` once `meshing` is known to be a dict
(fields `mf`): computes the new value of the intent's `"meshing"` key,
reproducing the partial mutations that remain visible when an internal
access raises and the `except` clause discards the error.  `wb` writes the
current geometry fields (and cells fields, when the `cells` key has been
touched) back into the nested structure. -/
def enforceBlockPart (mf : JObj) (mode : String) (template_obj : JObj) : Json :=
  match ensureObj mf "blockMesh" with
  | none => Json.obj mf
  | some (bf, mf1) =>
  match ensureObj bf "geometry" with
  | none => Json.obj mf1
  | some (gf, bf1) =>
  let gf1 := setKey gf "dimension_mode" (Json.str mode)
  let wb : JObj → Option JObj → Json := fun gfNow cellsNow =>
    let bf2 := setKey bf1 "geometry" (Json.obj gfNow)
    let bf3 := match cellsNow with
      | none => bf2
      | some cf => setKey bf2 "cells" (Json.obj cf)
    Json.obj (setKey mf1 "blockMesh" (Json.obj bf3))
  match templateChainGet template_obj "blockMesh" "geometry" with
  | none => wb gf1 none
  | some template_geo =>
  match templateChainGet template_obj "blockMesh" "cells" with
  | none => wb gf1 none
  | some template_cells =>
  let cells0 : Option JObj :=
    match lookupKey bf1 "cells" with
    | none => some []
    | some (Json.obj cf) => some cf
    | some _ => none
  let nzPart : JObj → Json := fun gf2 =>
    match cells0 with
    | none => wb gf2 none
    | some cf =>
        match lookupKey cf "nz" with
        | some v =>
            if isPyInt v then
              wb gf2 (some (setKey cf "nz" (Json.int (max 1 (min (pyIntVal v) 10)))))
            else
              (match template_cells with
               | Json.obj tcf =>
                   (match lookupKey tcf "nz" with
                    | some fbnz =>
                        if isPyInt fbnz then wb gf2 (some (setKey cf "nz" fbnz))
                        else wb gf2 (some cf)
                    | none => wb gf2 (some cf))
               | _ => wb gf2 (some cf))
        | none =>
            (match template_cells with
             | Json.obj tcf =>
                 (match lookupKey tcf "nz" with
                  | some fbnz =>
                      if isPyInt fbnz then wb gf2 (some (setKey cf "nz" fbnz))
                      else wb gf2 (some cf)
                  | none => wb gf2 (some cf))
             | _ => wb gf2 (some cf))
  if mode = "2D_extruded" then
    let needFallback :=
      match lookupKey gf1 "thickness_2d_m" with
      | some t => !isPyNumber t
      | none => true
    if needFallback then
      match template_geo with
      | Json.obj tgf =>
          nzPart (setKey gf1 "thickness_2d_m"
            (numFallback (lookupKey tgf "thickness_2d_m") (lookupKey gf1 "height_m")))
      | _ => wb gf1 cells0
    else nzPart gf1
  else
    let needFallback :=
      match lookupKey gf1 "height_m" with
      | some t => !isPyNumber t
      | none => true
    if needFallback then
      match template_geo with
      | Json.obj tgf =>
          wb (setKey gf1 "height_m"
            (numFallback (lookupKey tgf "height_m") (lookupKey gf1 "thickness_2d_m"))) cells0
      | _ => wb gf1 cells0
    else wb gf1 cells0

/-- `enforce_dimension_mode(intent_obj, dimension_mode, template_obj)`:
mutates only the `"meshing"` subtree of the intent; returns the intent
unchanged when the mode is unrecognized or when `meshing` holds a non-dict
value (the internal exception is swallowed before any mutation). -/
def enforce_dimension_mode (intent_obj : JObj) (dimension_mode : Option String)
    (template_obj : JObj) : JObj :=
  match normalize_dimension_mode dimension_mode with
  | none => intent_obj
  | some mode =>
      match lookupKey intent_obj "meshing" with
      | none => setKey intent_obj "meshing" (enforceBlockPart [] mode template_obj)
      | some (Json.obj mf) => setKey intent_obj "meshing" (enforceBlockPart mf mode template_obj)
      | some _ => intent_obj

/-- Body of `apply_dimension_mode_to_template` once `meshing` is known to
be a dict; same conventions as `enforceBlockPart`.  The template variant
clamps an existing integer `nz` to `[2,10]`, defaults it to `4`, and only
falls back within the document itself. -/
def applyBlockPart (mf : JObj) (mode : String) : Json :=
  match ensureObj mf "blockMesh" with
  | none => Json.obj mf
  | some (bf, mf1) =>
  match ensureObj bf "geometry" with
  | none => Json.obj mf1
  | some (gf, bf1) =>
  let gf1 := setKey gf "dimension_mode" (Json.str mode)
  let wb : JObj → Option JObj → Json := fun gfNow cellsNow =>
    let bf2 := setKey bf1 "geometry" (Json.obj gfNow)
    let bf3 := match cellsNow with
      | none => bf2
      | some cf => setKey bf2 "cells" (Json.obj cf)
    Json.obj (setKey mf1 "blockMesh" (Json.obj bf3))
  let cells0 : Option JObj :=
    match lookupKey bf1 "cells" with
    | none => some []
    | some (Json.obj cf) => some cf
    | some _ => none
  if mode = "2D_extruded" then
    let gf2 :=
      match lookupKey gf1 "thickness_2d_m" with
      | some t =>
          if isPyNumber t then gf1
          else
            let fb := match lookupKey gf1 "height_m" with
              | some v => if isPyNumber v then v else Json.float (0.002 : Rat)
              | none => Json.float (0.002 : Rat)
            setKey gf1 "thickness_2d_m" fb
      | none =>
          let fb := match lookupKey gf1 "height_m" with
            | some v => if isPyNumber v then v else Json.float (0.002 : Rat)
            | none => Json.float (0.002 : Rat)
          setKey gf1 "thickness_2d_m" fb
    match cells0 with
    | none => wb gf2 none
    | some cf =>
        (match lookupKey cf "nz" with
         | some v =>
             if isPyInt v then
               wb gf2 (some (setKey cf "nz" (Json.int (max 2 (min (pyIntVal v) 10)))))
             else wb gf2 (some (setKey cf "nz" (Json.int 4)))
         | none => wb gf2 (some (setKey cf "nz" (Json.int 4))))
  else
    let heightOk := match lookupKey gf1 "height_m" with
      | some t => isPyNumber t
      | none => false
    if heightOk then wb gf1 cells0
    else
      match lookupKey gf1 "thickness_2d_m" with
      | some v =>
          if isPyNumber v then wb (setKey gf1 "height_m" v) cells0
          else wb gf1 cells0
      | none => wb gf1 cells0

/-- `apply_dimension_mode_to_template(template_obj, dimension_mode)`
(operates on a deep copy of the template; the copy is the identity here). -/
def apply_dimension_mode_to_template (template_obj : JObj)
    (dimension_mode : Option String) : JObj :=
  match normalize_dimension_mode dimension_mode with
  | none => template_obj
  | some mode =>
      match lookupKey template_obj "meshing" with
      | none => setKey template_obj "meshing" (applyBlockPart [] mode)
      | some (Json.obj mf) => setKey template_obj "meshing" (applyBlockPart mf mode)
      | some _ => template_obj

/-! ### Collector response normalization (`normalize_missing_parameters`) -/

/-- The `suggested` sub-record built by `normalize_missing_parameters`
from the raw `suggested` entry: a dict contributes `text` (stripped,
non-empty), numeric `value` and `si`, and `unit`; a bare string becomes
`text`; anything else contributes nothing. -/
def buildSuggested (raw : Option Json) : JObj :=
  match raw with
  | some (Json.obj sf) =>
      let text := pyStrip (pyStr (truthyOr (lookupKey sf "text") (Json.str "")))
      let s1 : JObj := if text = "" then [] else [("text", Json.str text)]
      let s2 := match lookupKey sf "value" with
        | some v => if isPyNumber v then s1 ++ [("value", v)] else s1
        | none => s1
      let s3 := match lookupKey sf "si" with
        | some v => if isPyNumber v then s2 ++ [("si", v)] else s2
        | none => s2
      let unit := pyStrip (pyStr (truthyOr (lookupKey sf "unit") (Json.str "")))
      if unit = "" then s3 else s3 ++ [("unit", Json.str unit)]
  | some (Json.str s) =>
      let text := pyStrip s
      if text = "" then [] else [("text", Json.str text)]
  | _ => []

/-- Normalization of a single dict entry of `missing_parameters`
(the loop body of `normalize_missing_parameters` for `isinstance(item, dict)`). -/
def normalize_one_missing (item : JObj) : JObj :=
  let labelRaw := pyStrip (pyStr (truthyOr (lookupKey item "label") (Json.str "")))
  let label :=
    if labelRaw = "" then
      let group := pyStrip (pyStr (truthyOr (lookupKey item "group") (Json.str "")))
      if group = "" then "参数" else group
    else labelRaw
  let detail := pyStrip (pyStr (truthyOr (lookupKey item "detail") (Json.str "")))
  let path := pyStrip (pyStr (truthyOr (lookupKey item "path") (Json.str "")))
  let suggested : JObj := buildSuggested (lookupKey item "suggested")
  let norm : JObj :=
    [("label", Json.str label), ("detail", Json.str detail), ("path", Json.str path)]
  if suggested.isEmpty then norm else norm ++ [("suggested", Json.obj suggested)]

/-- `normalize_missing_parameters(items)`: non-list input yields `[]`;
entries that are not dicts are skipped (`continue`). -/
def normalize_missing_parameters (items : Json) : List JObj :=
  match items with
  | Json.arr xs =>
      xs.filterMap (fun item =>
        match item with
        | Json.obj f => some (normalize_one_missing f)
        | _ => none)
  | _ => []

/-- The canonical missing-parameter record shape produced by the code:
`label`/`detail`/`path` strings, plus an optional non-empty `suggested`
object whose keys come from `text`/`value`/`si`/`unit`. -/
def canonicalMissingShape (r : JObj) : Bool :=
  match r with
  | ("label", Json.str _) :: ("detail", Json.str _) :: ("path", Json.str _) :: rest =>
      (match rest with
       | [] => true
       | [("suggested", Json.obj sf)] =>
           !sf.isEmpty && sf.all (fun kv => ["text", "value", "si", "unit"].contains kv.1)
       | _ => false)
  | _ => false

/-! ### Schema validation

The `jsonschema` library called by `schema_validate` is external to the
repository, so its validator is modelled from the spec. -/

/-- Instance-path element of a validation error: dict key or array index. -/
inductive PathElem where
  | key (s : String)
  | idx (n : Nat)

/-- One validation error: instance path plus message. -/
structure SchemaError where
  path : List PathElem
  message : String

/-- Modelled from the spec: the schema language accepted by the external
`Draft202012Validator` (absent from this repository), restricted to the
keyword families the spec names — `type`, `required`, `enum`, numeric
bounds, and nested object/array schemas via `properties`/`items`.
Reference resolution is not modelled. -/
inductive JSchema where
  | mk (type_ : Option String) (required : List String)
       (enum_ : Option (List Json)) (minimum maximum : Option Rat)
       (properties : List (String × JSchema)) (items : Option JSchema)

/-- Numeric value of an instance for bounds/enum comparison (Python-style:
bools are numbers). -/
def Json.numVal : Json → Option Rat
  | .int n => some (n : Rat)
  | .float q => some q
  | .bool b => some (if b then 1 else 0)
  | _ => none

mutual
/-- Python `==` on JSON-decoded values (numeric types compare by value,
as the enum check of the validator does). -/
def Json.beq : Json → Json → Bool
  | .str a, .str b => a == b
  | .null, .null => true
  | .arr xs, .arr ys => Json.beqArr xs ys
  | .obj fs, .obj gs => Json.beqFields fs gs
  | a, b =>
      match a.numVal, b.numVal with
      | some x, some y => x == y
      | _, _ => false

def Json.beqArr : List Json → List Json → Bool
  | [], [] => true
  | x :: xs, y :: ys => Json.beq x y && Json.beqArr xs ys
  | _, _ => false

def Json.beqFields : List (String × Json) → List (String × Json) → Bool
  | [], [] => true
  | (k, v) :: fs, (k', v') :: gs => k == k' && Json.beq v v' && Json.beqFields fs gs
  | _, _ => false
end

/-- Modelled from the spec: the `type` keyword test of the external
validator. -/
def typeMatches (t : String) (j : Json) : Bool :=
  match t with
  | "object" => j.isObj
  | "array" => (match j with | .arr _ => true | _ => false)
  | "string" => (match j with | .str _ => true | _ => false)
  | "number" => (match j with | .int _ => true | .float _ => true | _ => false)
  | "integer" =>
      (match j with | .int _ => true | .float q => q.den == 1 | _ => false)
  | "boolean" => (match j with | .bool _ => true | _ => false)
  | "null" => (match j with | .null => true | _ => false)
  | _ => false

/-- Modelled from the spec: errors of the `type` keyword. -/
def typeErrs (t : Option String) (j : Json) (path : List PathElem) : List SchemaError :=
  match t with
  | some ty => if typeMatches ty j then [] else [⟨path, "type mismatch: expected " ++ ty⟩]
  | none => []

/-- Modelled from the spec: errors of the `enum` keyword. -/
def enumErrs (en : Option (List Json)) (j : Json) (path : List PathElem) : List SchemaError :=
  match en with
  | some vs => if vs.any (fun e => Json.beq e j) then [] else [⟨path, "value not in enum"⟩]
  | none => []

/-- Modelled from the spec: errors of the `minimum` keyword. -/
def minErrs (mn : Option Rat) (j : Json) (path : List PathElem) : List SchemaError :=
  match mn, j.numVal with
  | some m, some x => if x < m then [⟨path, "below minimum"⟩] else []
  | _, _ => []

/-- Modelled from the spec: errors of the `maximum` keyword. -/
def maxErrs (mx : Option Rat) (j : Json) (path : List PathElem) : List SchemaError :=
  match mx, j.numVal with
  | some m, some x => if m < x then [⟨path, "above maximum"⟩] else []
  | _, _ => []

/-- Modelled from the spec: errors of the `required` keyword (applies only
to objects). -/
def requiredErrs (req : List String) (j : Json) (path : List PathElem) : List SchemaError :=
  match j with
  | .obj f =>
      req.filterMap (fun k =>
        if containsKey f k then none
        else some ⟨path, "missing required property: " ++ k⟩)
  | _ => []

mutual
/-- Modelled from the spec: `Draft202012Validator.iter_errors` over the
modelled keyword families, emitting errors with instance paths in document
order. -/
def iter_errors (s : JSchema) (j : Json) (path : List PathElem) : List SchemaError :=
  match s with
  | .mk t req en mn mx props it =>
      typeErrs t j path ++
      enumErrs en j path ++
      minErrs mn j path ++
      maxErrs mx j path ++
      requiredErrs req j path ++
      propsErrs props j path ++
      itemsErrs it j path
termination_by (sizeOf s, 0)

/-- Modelled from the spec: `properties` recursion (objects only). -/
def propsErrs (props : List (String × JSchema)) (j : Json) (path : List PathElem) :
    List SchemaError :=
  match j with
  | .obj f => iterProps props f path
  | _ => []
termination_by (sizeOf props, 2)

def iterProps (props : List (String × JSchema)) (f : JObj) (path : List PathElem) :
    List SchemaError :=
  match props with
  | [] => []
  | (k, sub) :: rest =>
      (match lookupKey f k with
       | some v => iter_errors sub v (path ++ [.key k])
       | none => []) ++ iterProps rest f path
termination_by (sizeOf props, 1)

/-- Modelled from the spec: `items` recursion (arrays only). -/
def itemsErrs (it : Option JSchema) (j : Json) (path : List PathElem) : List SchemaError :=
  match it, j with
  | some sub, .arr xs => iterItems sub xs 0 path
  | _, _ => []
termination_by (sizeOf it, 2)

def iterItems (sub : JSchema) (xs : List Json) (i : Nat) (path : List PathElem) :
    List SchemaError :=
  match xs with
  | [] => []
  | x :: rest => iter_errors sub x (path ++ [.idx i]) ++ iterItems sub rest (i + 1) path
termination_by (sizeOf sub, 1 + xs.length)
end

/-- Modelled from the spec: the `type` keyword holds. -/
def typeOk (t : Option String) (j : Json) : Bool :=
  match t with | some ty => typeMatches ty j | none => true

/-- Modelled from the spec: the `enum` keyword holds. -/
def enumOk (en : Option (List Json)) (j : Json) : Bool :=
  match en with | some vs => vs.any (fun e => Json.beq e j) | none => true

/-- Modelled from the spec: the `minimum` keyword holds. -/
def minOk (mn : Option Rat) (j : Json) : Bool :=
  match mn, j.numVal with
  | some m, some x => decide (m ≤ x)
  | _, _ => true

/-- Modelled from the spec: the `maximum` keyword holds. -/
def maxOk (mx : Option Rat) (j : Json) : Bool :=
  match mx, j.numVal with
  | some m, some x => decide (x ≤ m)
  | _, _ => true

/-- Modelled from the spec: the `required` keyword holds. -/
def requiredOk (req : List String) (j : Json) : Bool :=
  match j with
  | .obj f => req.all (fun k => containsKey f k)
  | _ => true

mutual
/-- Modelled from the spec: conformance of an instance to a schema,
defined directly (independently of the error list). -/
def conforms (s : JSchema) (j : Json) : Bool :=
  match s with
  | .mk t req en mn mx props it =>
      typeOk t j &&
      enumOk en j &&
      minOk mn j &&
      maxOk mx j &&
      requiredOk req j &&
      propsOk props j &&
      itemsOk it j
termination_by (sizeOf s, 0)

/-- Modelled from the spec: `properties` conformance (objects only). -/
def propsOk (props : List (String × JSchema)) (j : Json) : Bool :=
  match j with
  | .obj f => conformsProps props f
  | _ => true
termination_by (sizeOf props, 2)

def conformsProps (props : List (String × JSchema)) (f : JObj) : Bool :=
  match props with
  | [] => true
  | (k, sub) :: rest =>
      (match lookupKey f k with
       | some v => conforms sub v
       | none => true) && conformsProps rest f
termination_by (sizeOf props, 1)

/-- Modelled from the spec: `items` conformance (arrays only). -/
def itemsOk (it : Option JSchema) (j : Json) : Bool :=
  match it, j with
  | some sub, .arr xs => conformsItems sub xs
  | _, _ => true
termination_by (sizeOf it, 2)

def conformsItems (sub : JSchema) (xs : List Json) : Bool :=
  match xs with
  | [] => true
  | x :: rest => conforms sub x && conformsItems sub rest
termination_by (sizeOf sub, 1 + xs.length)
end

/-- Sort key for error paths, mirroring the elementwise comparison Python
applies to `e.path` deques.  Real instance paths never compare an index
with a key (a JSON node is either an array or an object), so the
index-before-key extension is arbitrary but unreachable. -/
def PathElem.toLex : PathElem → ℕ ⊕ₗ String
  | .key s => Sum.inrₗ s
  | .idx n => Sum.inlₗ n

/-- Boolean path comparison used as the sort key. -/
def pathLeB (a b : List PathElem) : Bool :=
  decide (a.map PathElem.toLex ≤ b.map PathElem.toLex)

/-- `schema_validate(instance, schema)`:
`sorted(validator.iter_errors(instance), key=lambda e: e.path)` — Python's
`sorted` is a stable merge sort keyed here by the instance path. -/
def schema_validate (instance_ : Json) (schema : JSchema) : List SchemaError :=
  (iter_errors schema instance_ []).mergeSort (fun a b => pathLeB a.path b.path)

/-- Path rendering of `format_schema_errors`: `$` then `.key` / `[idx]`. -/
def pathToString (p : List PathElem) : String :=
  "$" ++ String.join (p.map (fun e =>
    match e with
    | .key s => "." ++ s
    | .idx n => "[" ++ toString n ++ "]"))

/-- One formatted issue of `format_schema_errors`. -/
def formatIssue (e : SchemaError) : Json :=
  Json.obj [("path", Json.str (pathToString e.path)), ("message", Json.str e.message)]

/-- `format_schema_errors(errors)`: `{"valid": …, "issues": […]}`. -/
def format_schema_errors (errors : List SchemaError) : JObj :=
  [("valid", Json.bool (errors.length = 0 : Bool)),
   ("issues", Json.arr (errors.map formatIssue))]

/-! ### The `/intent/fill` pipeline (`intent_fill` in `app.py`)

External effects are parameters: `collected` is the JSON produced by the
collector generation call, `reviewer` is the outcome of
`call_reasoner_review` (`Except.error` carries the stringified exception).
`reviewer_invoked` records whether the pipeline reached the reviewer call
site.  Response fields that no claim mentions (`human_summary`,
`profile_slug`, `family`, `default_intent`, `defaults_overview` echoes)
are not part of the outcome. -/

structure FillOutcome where
  intent : JObj
  pipeline_status : String
  missing : List JObj
  review : JObj
  reviewer_invoked : Bool

/-- `collected if isinstance(collected, dict) else {}`. -/
def collectedDict (collected : Json) : JObj :=
  match collected with
  | Json.obj f => f
  | _ => []

/-- The normalized missing-parameter list of the collector stage. -/
def collectedMissing (collected : Json) : List JObj :=
  normalize_missing_parameters
    ((lookupKey (collectedDict collected) "missing_parameters").getD Json.null)

/-- `reasoner_raw.get("updated_intent") if isinstance(reasoner_raw, dict) else None`. -/
def reasonerUpdated (r : Json) : Option Json :=
  match r with
  | Json.obj rf => lookupKey rf "updated_intent"
  | _ => none

/-- Collector-path intent:
`merge_with_template(template_obj, intent_raw)` with the profile forced. -/
def collectorIntentRaw (collected_dict : JObj) : Json :=
  match lookupKey collected_dict "intent" with
  | some (Json.obj f) => Json.obj f
  | _ => Json.obj []

def collectIntent (template_obj : JObj) (profileName : String)
    (collected_dict : JObj) : JObj :=
  setKey (merge_with_template template_obj (collectorIntentRaw collected_dict))
    "profile" (Json.str profileName)

/-- The schema-valid intent entering the review stage: collector-path
intent (deep-copied — identity here) or the merged client intent, with the
profile identifier forced in either case. -/
def preReviewIntent (template_obj : JObj) (profileName : String)
    (client_intent : Option JObj) (collected_dict : JObj) : JObj :=
  match client_intent with
  | some c => setKey (merge_with_template template_obj (Json.obj c)) "profile" (Json.str profileName)
  | none => setKey (collectIntent template_obj profileName collected_dict) "profile" (Json.str profileName)

/-- Stages of `intent_fill` from the initial schema validation onward
(`final0` is the intent before the profile re-force). -/
def intent_fill_after_collect (schema : JSchema) (profileName : String)
    (reviewer : Except String Json) (final0 : JObj) : FillOutcome :=
  let final_intent := setKey final0 "profile" (Json.str profileName)
  let initialErrs := schema_validate (Json.obj final_intent) schema
  let review0 : JObj := [("schema_initial", Json.obj (format_schema_errors initialErrs))]
  if !initialErrs.isEmpty then
    { intent := final_intent, pipeline_status := "schema_failed", missing := [],
      review := review0, reviewer_invoked := false }
  else
    match reviewer with
    | .error e =>
        { intent := final_intent, pipeline_status := "reasoner_failed", missing := [],
          review := setKey review0 "reasoner_error" (Json.str e), reviewer_invoked := true }
    | .ok reasoner_raw =>
        let updated := reasonerUpdated reasoner_raw
        let final2base := match updated with
          | some (Json.obj uf) => uf
          | _ => final_intent
        let final2 := setKey final2base "profile" (Json.str profileName)
        let finalErrs := schema_validate (Json.obj final2) schema
        let getR : String → Json := fun k =>
          match reasoner_raw with
          | Json.obj rf => (lookupKey rf k).getD Json.null
          | _ => Json.null
        let review1 :=
          setKey (setKey (setKey (setKey review0
            "schema_final" (Json.obj (format_schema_errors finalErrs)))
            "physics" (getR "physics_check"))
            "expert" (getR "expert_review"))
            "auto_corrections" (getR "auto_corrections")
        { intent := final2,
          pipeline_status := if finalErrs.isEmpty then "ok" else "schema_regression",
          missing := [], review := review1, reviewer_invoked := true }

/-- `intent_fill` (POST `/intent/fill`): the full-fill pipeline. -/
def intent_fill (template_obj : JObj) (schema : JSchema) (profileName : String)
    (client_intent : Option JObj) (collected : Json)
    (reviewer : Except String Json) : FillOutcome :=
  match client_intent with
  | none =>
      let collected_dict : JObj := collectedDict collected
      let intent := collectIntent template_obj profileName collected_dict
      let missing_list := collectedMissing collected
      let summary_hint := pyStrip (pyStr (truthyOr (lookupKey collected_dict "summary") (Json.str "")))
      let defaults_overview : Json := match lookupKey collected_dict "defaults_overview" with
        | some (Json.obj f) => Json.obj f
        | _ => Json.null
      if !missing_list.isEmpty then
        { intent := intent
          pipeline_status := "needs_parameters"
          missing := missing_list
          review := [("stage", Json.str "collecting"), ("summary", Json.str summary_hint),
                     ("missing", Json.arr (missing_list.map Json.obj)),
                     ("defaults_overview", defaults_overview)]
          reviewer_invoked := false }
      else
        -- final_intent = deep_copy_json(intent): the copy is the identity here
        intent_fill_after_collect schema profileName reviewer intent
  | some c =>
      intent_fill_after_collect schema profileName reviewer
        (merge_with_template template_obj (Json.obj c))

/-! ### The `/intent/fill_fast` pipeline (`intent_fill_fast` in `app.py`) -/

/-- `job_meta.update(req.job_meta)` then `intent["job_meta"] = job_meta`:
the existing `job_meta` dict when present, updated key by key. -/
def applyJobMeta (intent1 : JObj) (job_meta : Option JObj) : JObj :=
  match job_meta with
  | some jm =>
      let base : JObj := match lookupKey intent1 "job_meta" with
        | some (Json.obj f) => f
        | _ => []
      setKey intent1 "job_meta" (Json.obj (jm.foldl (fun acc kv => setKey acc kv.1 kv.2) base))
  | none => intent1

/-- The intent returned by `/intent/fill_fast`: template prepared with the
dimension mode, merged with the generation call's `intent`, profile forced,
`job_meta` merged, dimension mode enforced.  `none` models the HTTP 502
raised when the generation result is not a dict (no intent is returned).
The response fields no claim mentions (`defaults_used`, `open_questions`,
the echoed `dimension_mode`) are not modelled. -/
def intent_fill_fast_result (template_raw : Json) (dimension_mode : Option String)
    (llm_result : Json) (job_meta : Option JObj) (profileName : String) : Option JObj :=
  let template_obj : JObj := match template_raw with | Json.obj f => f | _ => []
  let dm := normalize_dimension_mode dimension_mode
  let prepared := apply_dimension_mode_to_template template_obj dm
  match llm_result with
  | Json.obj lf =>
      let llm_intent_raw := match lookupKey lf "intent" with
        | some (Json.obj f) => Json.obj f
        | _ => Json.obj []
      let intent0 := merge_with_template prepared llm_intent_raw
      let intent1 := setKey intent0 "profile" (Json.str profileName)
      let intent2 := applyJobMeta intent1 job_meta
      some (enforce_dimension_mode intent2 dm prepared)
  | _ => none

/-! ### The `/intent/save` pipeline (`intent_save` in `app.py`) -/

structure SaveOutcome where
  intent : JObj
  job_id : String

/-- A character of the safe job-id class `[0-9A-Za-z_-]`. -/
def isSafeChar (c : Char) : Bool := c.isAlphanum || c = '_' || c = '-'

/-- `re.sub(r"[^0-9A-Za-z_-]", "-", value)`. -/
def sanitizeChars (s : String) : String :=
  ⟨s.data.map (fun c => if isSafeChar c then c else '-')⟩

/-- Python `str.strip("-")`. -/
def trimDashes (s : String) : String :=
  ⟨((s.data.dropWhile (fun c => c = '-')).reverse.dropWhile (fun c => c = '-')).reverse⟩

/-- `normalize_job_id(raw)`.  `fresh` stands for the synthesized
`job-<timestamp>-<random>` identifier (timestamp and uuid are external
nondeterminism). -/
def normalize_job_id (raw : Option Json) (fresh : String) : String :=
  let value := pyStrip (pyStr (truthyOr raw (Json.str "")))
  if value ≠ "" then
    let sanitized := trimDashes (sanitizeChars value)
    if sanitized ≠ "" then sanitized.take 120 else fresh
  else fresh

/-- `save_intent_with_job_directory(intent)` restricted to its effect on
the document: ensure a `job_meta` dict carrying the normalized job id.
Filesystem writes are outside the model; the returned pair is the stored
document and the job id. -/
def save_intent_with_job_directory (intent : JObj) (fresh : String) : JObj × String :=
  let jm : JObj := match lookupKey intent "job_meta" with
    | some (Json.obj f) => f
    | _ => []
  let job_id := normalize_job_id (lookupKey jm "job_id") fresh
  let jm1 := setKey jm "job_id" (Json.str job_id)
  (setKey intent "job_meta" (Json.obj jm1), job_id)

/-- `intent_save` (POST `/intent/save`): profile forced, `job_meta`
merged, schema-validated (failure returns the issue list as an HTTP 400),
then persisted.  `intent_obj = deep_copy_json(req.intent)` is the identity
in this embedding. -/
def intent_save_pipeline (intent0 : JObj) (schema : JSchema) (profileName : String)
    (job_meta : Option JObj) (fresh : String) : Except (List SchemaError) SaveOutcome :=
  let intent_obj1 := setKey intent0 "profile" (Json.str profileName)
  let intent_obj := applyJobMeta intent_obj1 job_meta
  let issues := schema_validate (Json.obj intent_obj) schema
  if !issues.isEmpty then .error issues
  else
    let saved := save_intent_with_job_directory intent_obj fresh
    .ok { intent := saved.1, job_id := saved.2 }

/-- Value at a nested dict-keyed path. -/
def getAtPath : Json → List String → Option Json
  | j, [] => some j
  | Json.obj f, k :: rest =>
      (match lookupKey f k with
       | some v => getAtPath v rest
       | none => none)
  | _, _ :: _ => none

/-- A `d.get(k)` result that is either absent or a dict (so the dimension
mode enforcement can descend without raising). -/
def dictShapeOk : Option Json → Bool
  | none => true
  | some (Json.obj _) => true
  | some _ => false

/-- The intent's `meshing.blockMesh.{geometry, cells}` chain holds only
dicts (or is absent) below the `meshing` fields `mf`. -/
def blockChainOk (mf : JObj) : Bool :=
  match lookupKey mf "blockMesh" with
  | none => true
  | some (Json.obj bf) =>
      dictShapeOk (lookupKey bf "geometry") && dictShapeOk (lookupKey bf "cells")
  | some _ => false

/-- The intent's full `meshing` chain holds only dicts (or is absent). -/
def meshingChainOk (intent_obj : JObj) : Bool :=
  match lookupKey intent_obj "meshing" with
  | none => true
  | some (Json.obj mf) => blockChainOk mf
  | some _ => false

/-! ### Lemmas about `setKey`, `lookupKey`, `mergeInto` -/

theorem lookup_setKey_self (o : JObj) (k : String) (v : Json) :
    lookupKey (setKey o k v) k = some v := by
  induction o with
  | nil => simp [setKey, lookupKey]
  | cons kv rest ih =>
      obtain ⟨k0, v0⟩ := kv
      by_cases h : k0 = k <;> simp [setKey, lookupKey, h, ih]

theorem lookup_setKey_ne (o : JObj) (k k' : String) (v : Json) (h : k' ≠ k) :
    lookupKey (setKey o k' v) k = lookupKey o k := by
  induction o with
  | nil => simp [setKey, lookupKey, h]
  | cons kv rest ih =>
      obtain ⟨k0, v0⟩ := kv
      by_cases h0 : k0 = k'
      · subst h0
        simp [setKey, lookupKey, h, ih]
      · simp [setKey, lookupKey, h0, ih]

theorem lookup_eq_none_of_not_contains (o : JObj) (k : String)
    (h : containsKey o k = false) : lookupKey o k = none := by
  induction o with
  | nil => rfl
  | cons kv rest ih =>
      obtain ⟨k0, v0⟩ := kv
      simp only [containsKey, Bool.or_eq_false_iff, decide_eq_false_iff_not] at h
      simp [lookupKey, h.1, ih h.2]

theorem lookup_mergeInto_of_absent (src : JObj) :
    ∀ (dst : JObj) (k : String), lookupKey src k = none →
      lookupKey (mergeInto dst src) k = lookupKey dst k := by
  induction src with
  | nil => intro dst k _; rfl
  | cons kv rest ih =>
      obtain ⟨k0, v0⟩ := kv
      intro dst k h
      by_cases h0 : k0 = k
      · simp [lookupKey, h0] at h
      · simp only [lookupKey, if_neg h0] at h
        rw [mergeInto, ih _ _ h, lookup_setKey_ne _ _ _ _ h0]

theorem wf_of_lookup (src : JObj) :
    ∀ (k : String) (sv : Json), Json.wfFields src = true →
      lookupKey src k = some sv → sv.wf = true := by
  induction src with
  | nil => intro k sv _ h; simp [lookupKey] at h
  | cons kv rest ih =>
      obtain ⟨k0, v0⟩ := kv
      intro k sv hwf h
      rw [Json.wfFields] at hwf
      simp only [Bool.and_eq_true] at hwf
      by_cases h0 : k0 = k
      · simp only [lookupKey, if_pos h0] at h
        cases h; exact hwf.1.2
      · simp only [lookupKey, if_neg h0] at h
        exact ih _ _ hwf.2 h

theorem lookup_mergeInto_of_present (src : JObj) :
    ∀ (dst : JObj) (k : String) (sv : Json),
      Json.wfFields src = true → lookupKey src k = some sv →
      lookupKey (mergeInto dst src) k = some (mergeVal (lookupKey dst k) sv) := by
  induction src with
  | nil => intro dst k sv _ h; simp [lookupKey] at h
  | cons kv rest ih =>
      obtain ⟨k0, v0⟩ := kv
      intro dst k sv hwf h
      rw [Json.wfFields] at hwf
      simp only [Bool.and_eq_true] at hwf
      by_cases h0 : k0 = k
      · simp only [lookupKey, if_pos h0] at h
        cases h
        subst h0
        have hnc : containsKey rest k0 = false := by
          have := hwf.1.1
          simpa using this
        have habs : lookupKey rest k0 = none :=
          lookup_eq_none_of_not_contains rest k0 hnc
        rw [mergeInto, lookup_mergeInto_of_absent _ _ _ habs, lookup_setKey_self]
      · simp only [lookupKey, if_neg h0] at h
        rw [mergeInto, ih _ _ _ hwf.2 h, lookup_setKey_ne _ _ _ _ h0]

theorem mergeInto_preserves_path :
    ∀ (p : List String) (dst src : JObj),
      Json.wfFields src = true →
      hasPathJ (Json.obj dst) p = true →
      hasPathJ (Json.obj src) p = false →
      overridesSafe (Json.obj src) p = true →
      hasPathJ (Json.obj (mergeInto dst src)) p = true := by
  intro p
  induction p with
  | nil => intro dst src _ _ _ _; rfl
  | cons k ks ih =>
      intro dst src hwf hT hO hsafe
      cases htv : lookupKey dst k with
      | none =>
          simp only [hasPathJ, htv] at hT
          exact Bool.false_ne_true hT |>.elim
      | some tv =>
          simp only [hasPathJ, htv] at hT
          cases hsv : lookupKey src k with
          | none =>
              have hlook := lookup_mergeInto_of_absent src dst k hsv
              simp only [hasPathJ, hlook, htv]
              exact hT
          | some sv =>
              simp only [hasPathJ, hsv] at hO
              simp only [overridesSafe, hsv] at hsafe
              cases sv with
              | obj sg =>
                  have hlook := lookup_mergeInto_of_present src dst k (Json.obj sg) hwf hsv
                  rw [htv] at hlook
                  have hsgwf : Json.wfFields sg = true := by
                    have := wf_of_lookup src k (Json.obj sg) hwf hsv
                    rw [Json.wf] at this
                    exact this
                  cases ks with
                  | nil => simp [hasPathJ] at hO
                  | cons k2 ks2 =>
                      cases tv with
                      | obj tg =>
                          simp only [mergeVal] at hlook
                          simp only [hasPathJ, hlook]
                          exact ih tg sg hsgwf hT hO hsafe
                      | null => simp [hasPathJ] at hT
                      | bool b => simp [hasPathJ] at hT
                      | int n => simp [hasPathJ] at hT
                      | float q => simp [hasPathJ] at hT
                      | str s => simp [hasPathJ] at hT
                      | arr xs => simp [hasPathJ] at hT
              | null => simp at hsafe
              | bool b => simp at hsafe
              | int n => simp at hsafe
              | float q => simp at hsafe
              | str s => simp at hsafe
              | arr xs => simp at hsafe

/-! ### Validator correctness (for C7) -/

theorem typeErrs_empty_iff (t : Option String) (j : Json) (path : List PathElem) :
    typeErrs t j path = [] ↔ typeOk t j = true := by
  cases t with
  | none => simp [typeErrs, typeOk]
  | some ty => by_cases hm : typeMatches ty j <;> simp [typeErrs, typeOk, hm]

theorem enumErrs_empty_iff (en : Option (List Json)) (j : Json) (path : List PathElem) :
    enumErrs en j path = [] ↔ enumOk en j = true := by
  cases en with
  | none => simp [enumErrs, enumOk]
  | some vs => by_cases hm : vs.any (fun e => Json.beq e j) <;> simp [enumErrs, enumOk, hm]

theorem minErrs_empty_iff (mn : Option Rat) (j : Json) (path : List PathElem) :
    minErrs mn j path = [] ↔ minOk mn j = true := by
  cases mn with
  | none => simp [minErrs, minOk]
  | some m =>
      cases hv : j.numVal with
      | none => simp [minErrs, minOk, hv]
      | some x =>
          by_cases hlt : x < m
          · simp [minErrs, minOk, hv, hlt, not_le.mpr hlt]
          · simp [minErrs, minOk, hv, hlt, not_lt.mp hlt]

theorem maxErrs_empty_iff (mx : Option Rat) (j : Json) (path : List PathElem) :
    maxErrs mx j path = [] ↔ maxOk mx j = true := by
  cases mx with
  | none => simp [maxErrs, maxOk]
  | some m =>
      cases hv : j.numVal with
      | none => simp [maxErrs, maxOk, hv]
      | some x =>
          by_cases hlt : m < x
          · simp [maxErrs, maxOk, hv, hlt, not_le.mpr hlt]
          · simp [maxErrs, maxOk, hv, hlt, not_lt.mp hlt]

theorem requiredErrs_empty_iff (req : List String) (j : Json) (path : List PathElem) :
    requiredErrs req j path = [] ↔ requiredOk req j = true := by
  cases j with
  | obj f =>
      simp only [requiredErrs, requiredOk, List.filterMap_eq_nil_iff, List.all_eq_true]
      refine forall_congr' fun k => forall_congr' fun _ => ?_
      by_cases hc : containsKey f k <;> simp [hc]
  | null => simp [requiredErrs, requiredOk]
  | bool b => simp [requiredErrs, requiredOk]
  | int n => simp [requiredErrs, requiredOk]
  | float q => simp [requiredErrs, requiredOk]
  | str t2 => simp [requiredErrs, requiredOk]
  | arr xs => simp [requiredErrs, requiredOk]

mutual
theorem iter_errors_empty_iff (s : JSchema) (j : Json) (path : List PathElem) :
    iter_errors s j path = [] ↔ conforms s j = true := by
  cases s with
  | mk t req en mn mx props it =>
      rw [iter_errors, conforms]
      simp only [List.append_eq_nil, Bool.and_eq_true]
      refine and_congr (and_congr (and_congr (and_congr (and_congr (and_congr ?_ ?_) ?_) ?_) ?_) ?_) ?_
      · exact typeErrs_empty_iff t j path
      · exact enumErrs_empty_iff en j path
      · exact minErrs_empty_iff mn j path
      · exact maxErrs_empty_iff mx j path
      · exact requiredErrs_empty_iff req j path
      · exact propsErrs_empty_iff props j path
      · exact itemsErrs_empty_iff it j path
termination_by (sizeOf s, 0)

theorem propsErrs_empty_iff (props : List (String × JSchema)) (j : Json)
    (path : List PathElem) :
    propsErrs props j path = [] ↔ propsOk props j = true := by
  cases j with
  | obj f =>
      rw [propsErrs, propsOk]
      exact iterProps_empty_iff props f path
  | null => simp [propsErrs, propsOk]
  | bool b => simp [propsErrs, propsOk]
  | int n => simp [propsErrs, propsOk]
  | float q => simp [propsErrs, propsOk]
  | str t2 => simp [propsErrs, propsOk]
  | arr xs => simp [propsErrs, propsOk]
termination_by (sizeOf props, 2)

theorem itemsErrs_empty_iff (it : Option JSchema) (j : Json) (path : List PathElem) :
    itemsErrs it j path = [] ↔ itemsOk it j = true := by
  cases it with
  | none => cases j <;> simp [itemsErrs, itemsOk]
  | some sub =>
      cases j with
      | arr xs =>
          rw [itemsErrs, itemsOk]
          exact iterItems_empty_iff sub xs 0 path
      | null => simp [itemsErrs, itemsOk]
      | bool b => simp [itemsErrs, itemsOk]
      | int n => simp [itemsErrs, itemsOk]
      | float q => simp [itemsErrs, itemsOk]
      | str t2 => simp [itemsErrs, itemsOk]
      | obj f => simp [itemsErrs, itemsOk]
termination_by (sizeOf it, 2)

theorem iterProps_empty_iff (props : List (String × JSchema)) (f : JObj)
    (path : List PathElem) :
    iterProps props f path = [] ↔ conformsProps props f = true := by
  match props with
  | [] => simp [iterProps, conformsProps]
  | (k, sub) :: rest =>
      rw [iterProps, conformsProps]
      simp only [List.append_eq_nil, Bool.and_eq_true]
      refine and_congr ?_ (iterProps_empty_iff rest f path)
      cases h : lookupKey f k with
      | some v =>
          simp only [h]
          exact iter_errors_empty_iff sub v (path ++ [PathElem.key k])
      | none => simp [h]
termination_by (sizeOf props, 1)

theorem iterItems_empty_iff (sub : JSchema) (xs : List Json) (i : Nat)
    (path : List PathElem) :
    iterItems sub xs i path = [] ↔ conformsItems sub xs = true := by
  match xs with
  | [] => simp [iterItems, conformsItems]
  | x :: rest =>
      rw [iterItems, conformsItems]
      simp only [List.append_eq_nil, Bool.and_eq_true]
      exact and_congr (iter_errors_empty_iff sub x (path ++ [PathElem.idx i]))
        (iterItems_empty_iff sub rest (i + 1) path)
termination_by (sizeOf sub, 1 + xs.length)
end

/-! ### Path order facts and the C7 theorem -/

theorem pathLeB_trans (a b c : List PathElem) :
    pathLeB a b = true → pathLeB b c = true → pathLeB a c = true := by
  simp only [pathLeB, decide_eq_true_eq]
  exact le_trans

theorem pathLeB_total (a b : List PathElem) :
    (pathLeB a b || pathLeB b a) = true := by
  simp only [pathLeB, Bool.or_eq_true, decide_eq_true_eq]
  exact le_total _ _

theorem schema_validate_empty_iff (instance_ : Json) (schema : JSchema) :
    schema_validate instance_ schema = [] ↔ conforms schema instance_ = true := by
  have hp := List.mergeSort_perm (iter_errors schema instance_ [])
    (fun a b => pathLeB a.path b.path)
  rw [schema_validate]
  constructor
  · intro h
    rw [h] at hp
    exact (iter_errors_empty_iff schema instance_ []).mp hp.symm.eq_nil
  · intro h
    have he := (iter_errors_empty_iff schema instance_ []).mpr h
    rw [he]
    simp

/-- C7: for every instance and schema, `schema_validate` returns the list
of `(path, message)` issues sorted by instance path, and the list is empty
if and only if the instance conforms to the schema (the conformance
predicate `conforms` is defined independently of the error list).  The
draft-2020-12 validator itself is external to the repository and modelled
from the spec. -/
theorem claim_C7_validate_sorted_and_complete (instance_ : Json) (schema : JSchema) :
    List.Pairwise (fun a b : SchemaError => pathLeB a.path b.path = true)
      (schema_validate instance_ schema) ∧
    (schema_validate instance_ schema = [] ↔ conforms schema instance_ = true) := by
  constructor
  · exact List.sorted_mergeSort
      (fun a b c h1 h2 => pathLeB_trans a.path b.path c.path h1 h2)
      (fun a b => pathLeB_total a.path b.path)
      (iter_errors schema instance_ [])
  · exact schema_validate_empty_iff instance_ schema

/-! ### C9: merge identity laws -/

/-- C9: for every template `T`, `merge(T, {})` equals `T`, and for every
non-object overrides value `merge(T, overrides)` equals the unmodified
template copy. -/
theorem claim_C9_merge_identity (T : JObj) (o : Json) (h : o.isObj = false) :
    merge_with_template T (Json.obj []) = T ∧ merge_with_template T o = T := by
  constructor
  · rfl
  · cases o with
    | obj f => simp [Json.isObj] at h
    | null => rfl
    | bool b => rfl
    | int n => rfl
    | float q => rfl
    | str t => rfl
    | arr xs => rfl

/-- Witness for C9 at a concrete template and the non-object override `None`. -/
theorem claim_C9_merge_identity_witness :
    (Json.null).isObj = false ∧
      (merge_with_template [("a", Json.int 1)] (Json.obj []) = [("a", Json.int 1)] ∧
       merge_with_template [("a", Json.int 1)] Json.null = [("a", Json.int 1)]) :=
  ⟨rfl, claim_C9_merge_identity [("a", Json.int 1)] Json.null rfl⟩

/-! ### C10: merge never drops template-only keys — corrected -/

/-- C10 counterexample: the claim fails as stated.  With template
`{"a": {"b": 1}}` and overrides `{"a": 5}`, the nested key path `a.b` is
present in the template and absent from the overrides, yet the merge
result `{"a": 5}` no longer contains it (a non-dict override replaces the
whole subtree). -/
theorem claim_C10_counterexample :
    hasPathJ (Json.obj [("a", Json.obj [("b", Json.int 1)])]) ["a", "b"] = true ∧
    hasPathJ (Json.obj [("a", Json.int 5)]) ["a", "b"] = false ∧
    hasPathJ (Json.obj (merge_with_template [("a", Json.obj [("b", Json.int 1)])]
      (Json.obj [("a", Json.int 5)]))) ["a", "b"] = false :=
  ⟨rfl, rfl, rfl⟩

/-- C10 amended: every key path present in the template and absent from
the overrides survives the merge, provided the overrides do not replace a
proper ancestor of that path with a non-dict value (`overridesSafe`), for
overrides with Python-dict key uniqueness (`Json.wf`). -/
theorem claim_C10_merge_preserves_keys (T : JObj) (O : Json) (p : List String)
    (hwf : O.wf = true)
    (hT : hasPathJ (Json.obj T) p = true)
    (hO : hasPathJ O p = false)
    (hsafe : overridesSafe O p = true) :
    hasPathJ (Json.obj (merge_with_template T O)) p = true := by
  cases O with
  | obj src =>
      rw [Json.wf] at hwf
      exact mergeInto_preserves_path p T src hwf hT hO hsafe
  | null => exact hT
  | bool b => exact hT
  | int n => exact hT
  | float q => exact hT
  | str t => exact hT
  | arr xs => exact hT

/-- Witness for the amended C10: template `{"a": {"b": 1}, "c": 2}`,
overrides `{"a": {"d": 3}}`, path `a.b` survives. -/
theorem claim_C10_merge_preserves_keys_witness :
    (Json.obj [("a", Json.obj [("d", Json.int 3)])]).wf = true ∧
    hasPathJ (Json.obj [("a", Json.obj [("b", Json.int 1)]), ("c", Json.int 2)]) ["a", "b"] = true ∧
    hasPathJ (Json.obj [("a", Json.obj [("d", Json.int 3)])]) ["a", "b"] = false ∧
    overridesSafe (Json.obj [("a", Json.obj [("d", Json.int 3)])]) ["a", "b"] = true ∧
    hasPathJ (Json.obj (merge_with_template
      [("a", Json.obj [("b", Json.int 1)]), ("c", Json.int 2)]
      (Json.obj [("a", Json.obj [("d", Json.int 3)])]))) ["a", "b"] = true :=
  ⟨rfl, rfl, rfl, rfl,
    claim_C10_merge_preserves_keys
      [("a", Json.obj [("b", Json.int 1)]), ("c", Json.int 2)]
      (Json.obj [("a", Json.obj [("d", Json.int 3)])]) ["a", "b"] rfl rfl rfl rfl⟩

theorem buildSuggested_keys (raw : Option Json) :
    (buildSuggested raw).all (fun kv => ["text", "value", "si", "unit"].contains kv.1) = true := by
  cases raw with
  | none => rfl
  | some j =>
      cases j with
      | obj sf =>
          simp only [buildSuggested]
          repeat' split
          all_goals simp
      | str s =>
          simp only [buildSuggested]
          split <;> simp
      | null => rfl
      | bool b => rfl
      | int n => rfl
      | float q => rfl
      | arr xs => rfl

theorem normalize_one_missing_shape (f : JObj) :
    canonicalMissingShape (normalize_one_missing f) = true := by
  have hk := buildSuggested_keys (lookupKey f "suggested")
  by_cases h : (buildSuggested (lookupKey f "suggested")).isEmpty
  · rw [normalize_one_missing, if_pos h]
    rfl
  · rw [normalize_one_missing, if_neg h]
    simp only [List.cons_append, List.nil_append]
    rw [canonicalMissingShape]
    simp only [Bool.and_eq_true]
    exact ⟨by simpa using h, hk⟩

/-! ### C6: missing-parameter normalization — corrected -/

/-- C6 counterexample: a well-formed string entry is dropped by
`normalize_missing_parameters` (`if not isinstance(item, dict): continue`),
so the claim that every entry is normalized regardless of string/object
shape fails: a one-element list of one string entry normalizes to the
empty list. -/
theorem claim_C6_counterexample :
    normalize_missing_parameters (Json.arr [Json.str "缺少入口流量"]) = [] := rfl

/-- C6 amended: every dict entry (and only dict entries) of the
`missing_parameters` list is normalized, in order, to the canonical record
shape `{label, detail, path, suggested?:{text?, value?, si?, unit?}}`;
entries of any other shape (including strings) are dropped. -/
theorem claim_C6_normalize_shape (items : List Json) :
    (normalize_missing_parameters (Json.arr items)).length =
      (items.filter Json.isObj).length ∧
    ∀ r ∈ normalize_missing_parameters (Json.arr items),
      canonicalMissingShape r = true := by
  constructor
  · rw [normalize_missing_parameters]
    induction items with
    | nil => rfl
    | cons x rest ih =>
        cases x <;> simp_all [List.filterMap_cons, List.filter_cons, Json.isObj]
  · intro r hr
    rw [normalize_missing_parameters] at hr
    simp only [List.mem_filterMap] at hr
    obtain ⟨item, _, hitem⟩ := hr
    cases item with
    | obj f =>
        simp only [Option.some.injEq] at hitem
        subst hitem
        exact normalize_one_missing_shape f
    | null => simp at hitem
    | bool b => simp at hitem
    | int n => simp at hitem
    | float q => simp at hitem
    | str t => simp at hitem
    | arr xs => simp at hitem

/-! ### Pipeline lemmas and claims C1–C4 -/

theorem intent_fill_none_empty (template_obj : JObj) (schema : JSchema)
    (profileName : String) (collected : Json) (reviewer : Except String Json)
    (h : collectedMissing collected = []) :
    intent_fill template_obj schema profileName none collected reviewer =
      intent_fill_after_collect schema profileName reviewer
        (collectIntent template_obj profileName (collectedDict collected)) := by
  have hempty : (collectedMissing collected).isEmpty = true := by rw [h]; rfl
  rw [intent_fill, hempty]
  rfl

/-- C1: in the full-fill pipeline with no client-supplied intent, a
non-empty normalized missing-parameter list from the collector stage makes
the pipeline return `needs_parameters` without ever invoking the reviewer. -/
theorem claim_C1_needs_parameters_halts (template_obj : JObj) (schema : JSchema)
    (profileName : String) (collected : Json) (reviewer : Except String Json)
    (hmiss : collectedMissing collected ≠ []) :
    (intent_fill template_obj schema profileName none collected reviewer).pipeline_status =
      "needs_parameters" ∧
    (intent_fill template_obj schema profileName none collected reviewer).reviewer_invoked =
      false := by
  have hfalse : (collectedMissing collected).isEmpty = false := by
    cases hcm : collectedMissing collected with
    | nil => exact absurd hcm hmiss
    | cons a l => rfl
  rw [intent_fill, hfalse]
  exact ⟨rfl, rfl⟩

/-- Witness for C1: a collector response with one missing-parameter entry. -/
theorem claim_C1_needs_parameters_halts_witness :
    collectedMissing (Json.obj [("missing_parameters",
        Json.arr [Json.obj [("label", Json.str "入口流量")]])]) ≠ [] ∧
    ((intent_fill [] (JSchema.mk none [] none none none [] none) "P" none
        (Json.obj [("missing_parameters", Json.arr [Json.obj [("label", Json.str "入口流量")]])])
        (Except.error "unused")).pipeline_status = "needs_parameters" ∧
     (intent_fill [] (JSchema.mk none [] none none none [] none) "P" none
        (Json.obj [("missing_parameters", Json.arr [Json.obj [("label", Json.str "入口流量")]])])
        (Except.error "unused")).reviewer_invoked = false) :=
  And.intro (fun h => nomatch h)
    (claim_C1_needs_parameters_halts [] (JSchema.mk none [] none none none [] none) "P"
      (Json.obj [("missing_parameters", Json.arr [Json.obj [("label", Json.str "入口流量")]])])
      (Except.error "unused") (fun h => nomatch h))

theorem after_collect_schema_failed (schema : JSchema) (profileName : String)
    (reviewer : Except String Json) (final0 : JObj)
    (h : schema_validate (Json.obj (setKey final0 "profile" (Json.str profileName))) schema ≠ []) :
    (intent_fill_after_collect schema profileName reviewer final0).pipeline_status =
      "schema_failed" ∧
    (intent_fill_after_collect schema profileName reviewer final0).reviewer_invoked = false := by
  have hfalse : (schema_validate (Json.obj (setKey final0 "profile" (Json.str profileName)))
      schema).isEmpty = false := by
    cases hcm : schema_validate (Json.obj (setKey final0 "profile" (Json.str profileName))) schema with
    | nil => exact absurd hcm h
    | cons a l => rfl
  simp only [intent_fill_after_collect.eq_def, hfalse]
  exact ⟨rfl, rfl⟩

theorem after_collect_status_of_invoked (schema : JSchema) (profileName : String)
    (reviewer : Except String Json) (final0 : JObj)
    (h : (intent_fill_after_collect schema profileName reviewer final0).pipeline_status ≠
      "schema_failed") :
    schema_validate (Json.obj (setKey final0 "profile" (Json.str profileName))) schema = [] := by
  cases hv : schema_validate (Json.obj (setKey final0 "profile" (Json.str profileName))) schema with
  | nil => rfl
  | cons a l =>
      exfalso
      apply h
      simp only [intent_fill_after_collect.eq_def, hv]
      rfl

/-- C2: a failing initial schema validation terminates the full-fill
pipeline at `schema_failed` without invoking the reviewer; and on any run
whatsoever, a `schema_regression` status implies the initial validation
passed, so no request can carry both statuses. -/
theorem claim_C2_schema_failed_halts (template_obj : JObj) (schema : JSchema)
    (profileName : String) (client_intent : Option JObj) (collected : Json)
    (reviewer : Except String Json)
    (hm : client_intent = none → collectedMissing collected = []) :
    (schema_validate (Json.obj (preReviewIntent template_obj profileName client_intent
        (collectedDict collected))) schema ≠ [] →
      (intent_fill template_obj schema profileName client_intent collected
          reviewer).pipeline_status = "schema_failed" ∧
      (intent_fill template_obj schema profileName client_intent collected
          reviewer).reviewer_invoked = false) ∧
    ((intent_fill template_obj schema profileName client_intent collected
        reviewer).pipeline_status = "schema_regression" →
      schema_validate (Json.obj (preReviewIntent template_obj profileName client_intent
        (collectedDict collected))) schema = []) := by
  cases client_intent with
  | some c =>
      constructor
      · intro hv
        exact after_collect_schema_failed schema profileName reviewer
          (merge_with_template template_obj (Json.obj c)) hv
      · intro hs
        refine after_collect_status_of_invoked schema profileName reviewer
          (merge_with_template template_obj (Json.obj c)) ?_
        intro hcon
        have hcol : ("schema_regression" : String) = "schema_failed" :=
          (hs.symm.trans hcon : _)
        exact absurd hcol (by decide)
  | none =>
      have heq := intent_fill_none_empty template_obj schema profileName collected reviewer (hm rfl)
      rw [heq]
      constructor
      · intro hv
        exact after_collect_schema_failed schema profileName reviewer
          (collectIntent template_obj profileName (collectedDict collected)) hv
      · intro hs
        refine after_collect_status_of_invoked schema profileName reviewer
          (collectIntent template_obj profileName (collectedDict collected)) ?_
        intro hcon
        have hcol : ("schema_regression" : String) = "schema_failed" :=
          (hs.symm.trans hcon : _)
        exact absurd hcol (by decide)

theorem after_collect_error (schema : JSchema) (p : String) (e : String) (final0 : JObj)
    (hvalid : schema_validate (Json.obj (setKey final0 "profile" (Json.str p))) schema = []) :
    (intent_fill_after_collect schema p (Except.error e) final0).pipeline_status =
      "reasoner_failed" ∧
    (intent_fill_after_collect schema p (Except.error e) final0).intent =
      setKey final0 "profile" (Json.str p) ∧
    lookupKey (intent_fill_after_collect schema p (Except.error e) final0).review
      "reasoner_error" = some (Json.str e) := by
  simp only [intent_fill_after_collect.eq_def, hvalid]
  exact ⟨rfl, rfl, lookup_setKey_self _ _ _⟩

/-- C3: if the pipeline reaches the reviewer and the reviewer call fails,
the full-fill pipeline returns `reasoner_failed`, the returned intent is
the pre-review schema-valid intent unchanged, and the captured error
string is surfaced in the review payload under `reasoner_error`. -/
theorem claim_C3_reasoner_failed_retains_intent (template_obj : JObj) (schema : JSchema)
    (profileName : String) (client_intent : Option JObj) (collected : Json) (e : String)
    (hm : client_intent = none → collectedMissing collected = [])
    (hvalid : schema_validate (Json.obj (preReviewIntent template_obj profileName
        client_intent (collectedDict collected))) schema = []) :
    (intent_fill template_obj schema profileName client_intent collected
        (Except.error e)).pipeline_status = "reasoner_failed" ∧
    (intent_fill template_obj schema profileName client_intent collected
        (Except.error e)).intent =
      preReviewIntent template_obj profileName client_intent (collectedDict collected) ∧
    lookupKey (intent_fill template_obj schema profileName client_intent collected
        (Except.error e)).review "reasoner_error" = some (Json.str e) := by
  cases client_intent with
  | some c =>
      exact after_collect_error schema profileName e
        (merge_with_template template_obj (Json.obj c)) hvalid
  | none =>
      rw [intent_fill_none_empty template_obj schema profileName collected
        (Except.error e) (hm rfl)]
      exact after_collect_error schema profileName e
        (collectIntent template_obj profileName (collectedDict collected)) hvalid

set_option maxRecDepth 8000 in
unseal iter_errors propsErrs iterProps itemsErrs iterItems List.merge List.mergeSort in
/-- Witness for C3: empty template, trivial schema, collector with no
missing parameters, reviewer timing out with a captured error string. -/
theorem claim_C3_reasoner_failed_retains_intent_witness :
    ((none : Option JObj) = none → collectedMissing (Json.obj []) = []) ∧
    schema_validate (Json.obj (preReviewIntent [] "P" none (collectedDict (Json.obj []))))
      (JSchema.mk none [] none none none [] none) = [] ∧
    ((intent_fill [] (JSchema.mk none [] none none none [] none) "P" none (Json.obj [])
        (Except.error "上游超时")).pipeline_status = "reasoner_failed" ∧
     (intent_fill [] (JSchema.mk none [] none none none [] none) "P" none (Json.obj [])
        (Except.error "上游超时")).intent =
       preReviewIntent [] "P" none (collectedDict (Json.obj [])) ∧
     lookupKey (intent_fill [] (JSchema.mk none [] none none none [] none) "P" none
        (Json.obj []) (Except.error "上游超时")).review "reasoner_error" =
       some (Json.str "上游超时")) := by
  refine ⟨fun _ => rfl, rfl, ?_⟩
  exact claim_C3_reasoner_failed_retains_intent [] (JSchema.mk none [] none none none [] none)
    "P" none (Json.obj []) "上游超时" (fun _ => rfl) rfl

theorem after_collect_ok_regression (schema : JSchema) (p : String) (r : Json)
    (uf final0 : JObj)
    (hvalid : schema_validate (Json.obj (setKey final0 "profile" (Json.str p))) schema = [])
    (hupd : reasonerUpdated r = some (Json.obj uf))
    (hreg : schema_validate (Json.obj (setKey uf "profile" (Json.str p))) schema ≠ []) :
    (intent_fill_after_collect schema p (Except.ok r) final0).pipeline_status =
      "schema_regression" ∧
    (intent_fill_after_collect schema p (Except.ok r) final0).intent =
      setKey uf "profile" (Json.str p) := by
  have hfalse : (schema_validate (Json.obj (setKey uf "profile" (Json.str p))) schema).isEmpty =
      false := by
    cases hcm : schema_validate (Json.obj (setKey uf "profile" (Json.str p))) schema with
    | nil => exact absurd hcm hreg
    | cons a l => rfl
  simp only [intent_fill_after_collect.eq_def, hvalid, hupd, hfalse]
  exact ⟨rfl, rfl⟩

/-- C4: when the reviewer returns an `updated_intent` dict that fails the
final schema validation, the full-fill pipeline returns
`schema_regression`, and the returned intent is that updated intent with
the profile identifier re-forced — not the discarded pre-review intent. -/
theorem claim_C4_schema_regression_returns_updated (template_obj : JObj) (schema : JSchema)
    (profileName : String) (client_intent : Option JObj) (collected : Json) (r : Json)
    (uf : JObj)
    (hm : client_intent = none → collectedMissing collected = [])
    (hvalid : schema_validate (Json.obj (preReviewIntent template_obj profileName
        client_intent (collectedDict collected))) schema = [])
    (hupd : reasonerUpdated r = some (Json.obj uf))
    (hreg : schema_validate (Json.obj (setKey uf "profile" (Json.str profileName)))
        schema ≠ []) :
    (intent_fill template_obj schema profileName client_intent collected
        (Except.ok r)).pipeline_status = "schema_regression" ∧
    (intent_fill template_obj schema profileName client_intent collected
        (Except.ok r)).intent = setKey uf "profile" (Json.str profileName) := by
  cases client_intent with
  | some c =>
      exact after_collect_ok_regression schema profileName r uf
        (merge_with_template template_obj (Json.obj c)) hvalid hupd hreg
  | none =>
      rw [intent_fill_none_empty template_obj schema profileName collected
        (Except.ok r) (hm rfl)]
      exact after_collect_ok_regression schema profileName r uf
        (collectIntent template_obj profileName (collectedDict collected)) hvalid hupd hreg

set_option maxRecDepth 8000 in
unseal iter_errors propsErrs iterProps itemsErrs iterItems List.merge List.mergeSort in
/-- Witness for C4: a schema requiring key `foo`; the pre-review intent
(client-supplied) carries `foo`, the reviewer drops it, so the final
validation fails and the regressed intent is returned. -/
theorem claim_C4_schema_regression_returns_updated_witness :
    ((some [("foo", Json.int 1)] : Option JObj) = none →
      collectedMissing Json.null = []) ∧
    schema_validate (Json.obj (preReviewIntent [] "P" (some [("foo", Json.int 1)])
        (collectedDict Json.null))) (JSchema.mk none ["foo"] none none none [] none) = [] ∧
    reasonerUpdated (Json.obj [("updated_intent", Json.obj [("bar", Json.int 2)])]) =
      some (Json.obj [("bar", Json.int 2)]) ∧
    schema_validate (Json.obj (setKey [("bar", Json.int 2)] "profile" (Json.str "P")))
      (JSchema.mk none ["foo"] none none none [] none) ≠ [] ∧
    ((intent_fill [] (JSchema.mk none ["foo"] none none none [] none) "P"
        (some [("foo", Json.int 1)]) Json.null
        (Except.ok (Json.obj [("updated_intent", Json.obj [("bar", Json.int 2)])]))).pipeline_status =
      "schema_regression" ∧
     (intent_fill [] (JSchema.mk none ["foo"] none none none [] none) "P"
        (some [("foo", Json.int 1)]) Json.null
        (Except.ok (Json.obj [("updated_intent", Json.obj [("bar", Json.int 2)])]))).intent =
      setKey [("bar", Json.int 2)] "profile" (Json.str "P")) := by
  refine And.intro (fun h => nomatch h) (And.intro ?_ (And.intro rfl (And.intro ?_ ?_)))
  · rfl
  · exact fun h => nomatch h
  · exact claim_C4_schema_regression_returns_updated []
      (JSchema.mk none ["foo"] none none none [] none)
      "P" (some [("foo", Json.int 1)]) Json.null
      (Json.obj [("updated_intent", Json.obj [("bar", Json.int 2)])])
      [("bar", Json.int 2)] (fun h => nomatch h) rfl rfl (fun h => nomatch h)

set_option maxRecDepth 8000 in
unseal iter_errors propsErrs iterProps itemsErrs iterItems List.merge List.mergeSort in
/-- Witness for C2: a schema requiring `foo` and a client intent without
it — the pipeline stops at `schema_failed` with the reviewer uninvoked. -/
theorem claim_C2_schema_failed_halts_witness :
    ((some [] : Option JObj) = none → collectedMissing Json.null = []) ∧
    schema_validate (Json.obj (preReviewIntent [] "P" (some [])
        (collectedDict Json.null))) (JSchema.mk none ["foo"] none none none [] none) ≠ [] ∧
    ((intent_fill [] (JSchema.mk none ["foo"] none none none [] none) "P" (some [])
        Json.null (Except.error "unused")).pipeline_status = "schema_failed" ∧
     (intent_fill [] (JSchema.mk none ["foo"] none none none [] none) "P" (some [])
        Json.null (Except.error "unused")).reviewer_invoked = false) := by
  have h := claim_C2_schema_failed_halts [] (JSchema.mk none ["foo"] none none none [] none)
    "P" (some []) Json.null (Except.error "unused") (fun hc => nomatch hc)
  have hv : schema_validate (Json.obj (preReviewIntent [] "P" (some [])
      (collectedDict Json.null))) (JSchema.mk none ["foo"] none none none [] none) ≠ [] :=
    fun hh => nomatch hh
  exact And.intro (fun hc => nomatch hc) (And.intro hv (h.1 hv))

/-! ### C8: the profile identifier is force-written at every entry point -/

theorem lookup_applyJobMeta_ne (o : JObj) (jm : Option JObj) (k : String)
    (h : k ≠ "job_meta") :
    lookupKey (applyJobMeta o jm) k = lookupKey o k := by
  cases jm with
  | none => rfl
  | some f => exact lookup_setKey_ne _ _ _ _ (Ne.symm h)

theorem lookup_enforce_ne (intent_obj : JObj) (dm : Option String) (template_obj : JObj)
    (k : String) (h : k ≠ "meshing") :
    lookupKey (enforce_dimension_mode intent_obj dm template_obj) k =
      lookupKey intent_obj k := by
  rw [enforce_dimension_mode]
  cases normalize_dimension_mode dm with
  | none => rfl
  | some mode =>
      cases hm : lookupKey intent_obj "meshing" with
      | none => exact lookup_setKey_ne _ _ _ _ (Ne.symm h)
      | some v =>
          cases v with
          | obj mf => exact lookup_setKey_ne _ _ _ _ (Ne.symm h)
          | null => rfl
          | bool b => rfl
          | int n => rfl
          | float q => rfl
          | str t => rfl
          | arr xs => rfl

theorem after_collect_profile (schema : JSchema) (p : String)
    (reviewer : Except String Json) (final0 : JObj) :
    lookupKey (intent_fill_after_collect schema p reviewer final0).intent "profile" =
      some (Json.str p) := by
  cases hv : (schema_validate (Json.obj (setKey final0 "profile" (Json.str p))) schema).isEmpty with
  | false =>
      simp only [intent_fill_after_collect.eq_def, hv]
      exact lookup_setKey_self _ _ _
  | true =>
      simp only [intent_fill_after_collect.eq_def, hv]
      cases reviewer with
      | error e => exact lookup_setKey_self _ _ _
      | ok r =>
          cases hu : reasonerUpdated r with
          | none =>
              simp only [hu]
              exact lookup_setKey_self _ _ _
          | some u =>
              cases u with
              | obj uf =>
                  simp only [hu]
                  exact lookup_setKey_self _ _ _
              | null => simp only [hu]; exact lookup_setKey_self _ _ _
              | bool b => simp only [hu]; exact lookup_setKey_self _ _ _
              | int n => simp only [hu]; exact lookup_setKey_self _ _ _
              | float q => simp only [hu]; exact lookup_setKey_self _ _ _
              | str t => simp only [hu]; exact lookup_setKey_self _ _ _
              | arr xs => simp only [hu]; exact lookup_setKey_self _ _ _

/-- C8: at all three entry points — fast fill, full fill, and save — the
intent that is returned (or persisted) carries the registry's profile
identifier, regardless of client input or generation-call output. -/
theorem claim_C8_profile_always_forced
    (template_raw : Json) (dm : Option String) (llm : Json) (jm : Option JObj)
    (template_obj : JObj) (schema : JSchema) (p : String) (client : Option JObj)
    (collected : Json) (reviewer : Except String Json)
    (intent0 : JObj) (jm2 : Option JObj) (fresh : String) :
    (∀ r, intent_fill_fast_result template_raw dm llm jm p = some r →
       lookupKey r "profile" = some (Json.str p)) ∧
    lookupKey (intent_fill template_obj schema p client collected reviewer).intent
      "profile" = some (Json.str p) ∧
    (∀ out, intent_save_pipeline intent0 schema p jm2 fresh = Except.ok out →
       lookupKey out.intent "profile" = some (Json.str p)) := by
  refine ⟨?_, ?_, ?_⟩
  · intro r hr
    cases llm with
    | obj lf =>
        injection hr with hr
        subst hr
        rw [lookup_enforce_ne _ _ _ _ (by decide),
            lookup_applyJobMeta_ne _ _ _ (by decide)]
        exact lookup_setKey_self _ _ _
    | null => exact nomatch hr
    | bool b => exact nomatch hr
    | int n => exact nomatch hr
    | float q => exact nomatch hr
    | str t => exact nomatch hr
    | arr xs => exact nomatch hr
  · cases client with
    | some c => exact after_collect_profile schema p reviewer _
    | none =>
        cases hcm : (collectedMissing collected).isEmpty with
        | false =>
            rw [intent_fill, hcm]
            exact lookup_setKey_self _ _ _
        | true =>
            have hnil : collectedMissing collected = [] := by
              cases hx : collectedMissing collected with
              | nil => rfl
              | cons a l => rw [hx] at hcm; cases hcm
            rw [intent_fill_none_empty template_obj schema p collected reviewer hnil]
            exact after_collect_profile schema p reviewer _
  · intro out hout
    rw [intent_save_pipeline] at hout
    cases hv : (schema_validate (Json.obj (applyJobMeta (setKey intent0 "profile"
        (Json.str p)) jm2)) schema).isEmpty with
    | false => rw [hv] at hout; cases hout
    | true =>
        rw [hv] at hout
        injection hout with hout
        subst hout
        rw [save_intent_with_job_directory]
        simp only
        rw [lookup_setKey_ne _ _ _ _ (by decide),
            lookup_applyJobMeta_ne _ _ _ (by decide)]
        exact lookup_setKey_self _ _ _

set_option maxRecDepth 8000 in
unseal iter_errors propsErrs iterProps itemsErrs iterItems List.merge List.mergeSort in
/-- Witness for C8: concrete runs of all three entry points, with the
save pipeline succeeding against the trivial schema. -/
theorem claim_C8_profile_always_forced_witness :
    intent_fill_fast_result (Json.obj []) none (Json.obj []) none "P" =
      some [("profile", Json.str "P")] ∧
    lookupKey [("profile", Json.str "P")] "profile" = some (Json.str "P") ∧
    lookupKey (intent_fill [] (JSchema.mk none [] none none none [] none) "P" (some [])
      Json.null (Except.error "e")).intent "profile" = some (Json.str "P") ∧
    intent_save_pipeline [] (JSchema.mk none [] none none none [] none) "P" none "j1" =
      Except.ok ⟨[("profile", Json.str "P"),
        ("job_meta", Json.obj [("job_id", Json.str "j1")])], "j1"⟩ ∧
    lookupKey [("profile", Json.str "P"),
      ("job_meta", Json.obj [("job_id", Json.str "j1")])] "profile" =
      some (Json.str "P") := by
  have h := claim_C8_profile_always_forced (Json.obj []) none (Json.obj []) none
    [] (JSchema.mk none [] none none none [] none) "P" (some []) Json.null
    (Except.error "e") [] none "j1"
  refine ⟨rfl, h.1 _ rfl, h.2.1, rfl, ?_⟩
  exact h.2.2 _ rfl

/-! ### C5: 2D dimension-mode enforcement — corrected -/

/-- C5 counterexample: with an empty intent (thickness and cell count both
absent) and a template whose `cells.nz` is `40`, enforcement with
`2D_extruded` copies the template's `nz` without clamping, so the result
carries `nz = 40`, outside `[1,10]`. -/
theorem claim_C5_counterexample :
    getAtPath (Json.obj (enforce_dimension_mode [] (some "2D_extruded")
        [("meshing", Json.obj [("blockMesh",
          Json.obj [("cells", Json.obj [("nz", Json.int 40)])])])]))
      ["meshing", "blockMesh", "cells", "nz"] = some (Json.int 40) ∧
    ¬((1 : Int) ≤ 40 ∧ (40 : Int) ≤ 10) :=
  ⟨rfl, by decide⟩

theorem getAtPath_wb (mf1 bf1 : JObj) (gfv cfv : Json) :
    getAtPath (Json.obj (setKey mf1 "blockMesh"
        (Json.obj (setKey (setKey bf1 "geometry" gfv) "cells" cfv))))
      ("blockMesh" :: rest) =
      getAtPath (Json.obj (setKey (setKey bf1 "geometry" gfv) "cells" cfv)) rest := by
  simp only [getAtPath, lookup_setKey_self]

theorem lookup_wb_geometry (bf1 : JObj) (gfv cfv : Json) :
    lookupKey (setKey (setKey bf1 "geometry" gfv) "cells" cfv) "geometry" = some gfv := by
  rw [lookup_setKey_ne _ _ _ _ (by decide), lookup_setKey_self]

theorem lookup_wb_cells (bf1 : JObj) (gfv cfv : Json) :
    lookupKey (setKey (setKey bf1 "geometry" gfv) "cells" cfv) "cells" = some cfv := by
  rw [lookup_setKey_self]

theorem numFallback_numeric (a b : Option Json) :
    isPyNumber (numFallback a b) = true := by
  rw [numFallback.eq_def]
  cases a with
  | none =>
      simp only
      cases b with
      | none => rfl
      | some v =>
          by_cases hv : isPyNumber v
          · simp [hv]
          · rw [Bool.not_eq_true] at hv
            simp [hv]
            rfl
  | some v =>
      by_cases hv : isPyNumber v
      · simp [hv]
      · rw [Bool.not_eq_true] at hv
        simp only [hv]
        cases b with
        | none => simp; rfl
        | some w =>
            by_cases hw : isPyNumber w
            · simp [hv, hw]
            · rw [Bool.not_eq_true] at hw
              simp [hv, hw]
              rfl

theorem wb_conclusions (mf1 bf1 gf1 cf tcf : JObj) (fbv : Json)
    (hfb : isPyNumber fbv = true)
    (hcfnz : lookupKey cf "nz" = none) :
    (∃ v, getAtPath (Json.obj (setKey mf1 "blockMesh" (Json.obj (setKey (setKey bf1
        "geometry" (Json.obj (setKey gf1 "thickness_2d_m" fbv))) "cells"
        (Json.obj (match lookupKey tcf "nz" with
                   | some fbnz => if isPyInt fbnz then setKey cf "nz" fbnz else cf
                   | none => cf))))))
        ["blockMesh", "geometry", "thickness_2d_m"] = some v ∧ isPyNumber v = true) ∧
    getAtPath (Json.obj (setKey mf1 "blockMesh" (Json.obj (setKey (setKey bf1
        "geometry" (Json.obj (setKey gf1 "thickness_2d_m" fbv))) "cells"
        (Json.obj (match lookupKey tcf "nz" with
                   | some fbnz => if isPyInt fbnz then setKey cf "nz" fbnz else cf
                   | none => cf))))))
        ["blockMesh", "cells", "nz"] =
      (match lookupKey tcf "nz" with
       | some v => if isPyInt v then some v else none
       | none => none) := by
  constructor
  · refine ⟨fbv, ?_, hfb⟩
    simp only [getAtPath, lookup_setKey_self, lookup_wb_geometry]
  · cases hnzv : lookupKey tcf "nz" with
    | none =>
        simp only [getAtPath, lookup_setKey_self, lookup_wb_cells, hcfnz]
    | some v =>
        by_cases hint : isPyInt v
        · simp only [hint, if_true, getAtPath, lookup_setKey_self, lookup_wb_cells]
        · rw [Bool.not_eq_true] at hint
          simp only [hint, Bool.false_eq_true, if_false, getAtPath, lookup_setKey_self,
            lookup_wb_cells, hcfnz]

theorem enforceBlockPart_2D_reduce (mf bf gf cf mf1 bf1 : JObj)
    (template_obj tgf tcf : JObj)
    (hEnsure1 : ensureObj mf "blockMesh" = some (bf, mf1))
    (hEnsure2 : ensureObj bf "geometry" = some (gf, bf1))
    (hCells : (match lookupKey bf1 "cells" with
               | none => some []
               | some (Json.obj cf0) => some cf0
               | some _ => none) = some cf)
    (htg : templateChainGet template_obj "blockMesh" "geometry" = some (Json.obj tgf))
    (htc : templateChainGet template_obj "blockMesh" "cells" = some (Json.obj tcf))
    (hgth : lookupKey gf "thickness_2d_m" = none)
    (hcfnz : lookupKey cf "nz" = none) :
    enforceBlockPart mf "2D_extruded" template_obj =
      Json.obj (setKey mf1 "blockMesh" (Json.obj (setKey (setKey bf1
        "geometry" (Json.obj (setKey (setKey gf "dimension_mode" (Json.str "2D_extruded"))
          "thickness_2d_m" (numFallback (lookupKey tgf "thickness_2d_m")
            (lookupKey (setKey gf "dimension_mode" (Json.str "2D_extruded")) "height_m")))))
        "cells"
        (Json.obj (match lookupKey tcf "nz" with
                   | some fbnz => if isPyInt fbnz then setKey cf "nz" fbnz else cf
                   | none => cf))))) := by
  have hth1 : lookupKey (setKey gf "dimension_mode" (Json.str "2D_extruded"))
      "thickness_2d_m" = none := by
    rw [lookup_setKey_ne _ _ _ _ (by decide), hgth]
  rw [enforceBlockPart.eq_def]
  simp only [hEnsure1, hEnsure2, htg, htc, hth1, if_pos rfl, if_true, hCells, hcfnz]
  cases lookupKey tcf "nz" with
  | none => rfl
  | some fbnz =>
      by_cases h : isPyInt fbnz
      · simp [h]
      · rw [Bool.not_eq_true] at h
        simp [h]

theorem enforceBlockPart_2D_main (mf bf gf cf mf1 bf1 : JObj)
    (template_obj tgf tcf : JObj)
    (hEnsure1 : ensureObj mf "blockMesh" = some (bf, mf1))
    (hEnsure2 : ensureObj bf "geometry" = some (gf, bf1))
    (hCells : (match lookupKey bf1 "cells" with
               | none => some []
               | some (Json.obj cf0) => some cf0
               | some _ => none) = some cf)
    (htg : templateChainGet template_obj "blockMesh" "geometry" = some (Json.obj tgf))
    (htc : templateChainGet template_obj "blockMesh" "cells" = some (Json.obj tcf))
    (hgth : lookupKey gf "thickness_2d_m" = none)
    (hcfnz : lookupKey cf "nz" = none) :
    (∃ v, getAtPath (enforceBlockPart mf "2D_extruded" template_obj)
        ["blockMesh", "geometry", "thickness_2d_m"] = some v ∧ isPyNumber v = true) ∧
    getAtPath (enforceBlockPart mf "2D_extruded" template_obj)
        ["blockMesh", "cells", "nz"] =
      (match lookupKey tcf "nz" with
       | some v => if isPyInt v then some v else none
       | none => none) := by
  rw [enforceBlockPart_2D_reduce mf bf gf cf mf1 bf1 template_obj tgf tcf
    hEnsure1 hEnsure2 hCells htg htc hgth hcfnz]
  exact wb_conclusions mf1 bf1 (setKey gf "dimension_mode" (Json.str "2D_extruded")) cf tcf
    (numFallback (lookupKey tgf "thickness_2d_m")
      (lookupKey (setKey gf "dimension_mode" (Json.str "2D_extruded")) "height_m"))
    (numFallback_numeric _ _) hcfnz

/-- C5 amended: for every intent whose `meshing` chain holds only dicts
(or is absent) and whose thickness and cell-count are absent, and every
template whose `blockMesh.geometry`/`blockMesh.cells` chains resolve to
dicts, enforcement with `2D_extruded` yields a numeric
`thickness_2d_m` (via the fallback chain), while `cells.nz` is copied
unclamped from the template when the template's value is a Python int and
is left absent otherwise — the `[1,10]` clamp applies only to a cell count
already present in the intent. -/
theorem claim_C5_enforce_2d (intent_obj template_obj tgf tcf : JObj)
    (hok : meshingChainOk intent_obj = true)
    (htg : templateChainGet template_obj "blockMesh" "geometry" = some (Json.obj tgf))
    (htc : templateChainGet template_obj "blockMesh" "cells" = some (Json.obj tcf))
    (hth : getAtPath (Json.obj intent_obj)
        ["meshing", "blockMesh", "geometry", "thickness_2d_m"] = none)
    (hnz : getAtPath (Json.obj intent_obj)
        ["meshing", "blockMesh", "cells", "nz"] = none) :
    (∃ v, getAtPath (Json.obj (enforce_dimension_mode intent_obj (some "2D_extruded")
        template_obj)) ["meshing", "blockMesh", "geometry", "thickness_2d_m"] = some v ∧
        isPyNumber v = true) ∧
    getAtPath (Json.obj (enforce_dimension_mode intent_obj (some "2D_extruded")
        template_obj)) ["meshing", "blockMesh", "cells", "nz"] =
      (match lookupKey tcf "nz" with
       | some v => if isPyInt v then some v else none
       | none => none) := by
  have hnorm : normalize_dimension_mode (some "2D_extruded") = some "2D_extruded" := rfl
  cases hms : lookupKey intent_obj "meshing" with
  | none =>
      simp only [enforce_dimension_mode, hnorm, hms, getAtPath, lookup_setKey_self]
      exact enforceBlockPart_2D_main [] [] [] [] [("blockMesh", Json.obj [])]
        [("geometry", Json.obj [])] template_obj tgf tcf rfl rfl rfl htg htc rfl rfl
  | some mv =>
      cases mv with
      | obj mf =>
          simp only [meshingChainOk, hms] at hok
          simp only [getAtPath, hms] at hth hnz
          simp only [enforce_dimension_mode, hnorm, hms, getAtPath, lookup_setKey_self]
          cases hbm : lookupKey mf "blockMesh" with
          | none =>
              refine enforceBlockPart_2D_main mf [] [] [] (setKey mf "blockMesh" (Json.obj []))
                [("geometry", Json.obj [])] template_obj tgf tcf ?_ rfl rfl htg htc rfl rfl
              rw [ensureObj, hbm]
          | some bv =>
              cases bv with
              | obj bf =>
                  simp only [blockChainOk, hbm, Bool.and_eq_true] at hok
                  simp only [getAtPath, hbm] at hth hnz
                  have hEnsure1 : ensureObj mf "blockMesh" = some (bf, mf) := by
                    rw [ensureObj, hbm]
                  cases hgeo : lookupKey bf "geometry" with
                  | none =>
                      have hEnsure2 : ensureObj bf "geometry" =
                          some ([], setKey bf "geometry" (Json.obj [])) := by
                        rw [ensureObj, hgeo]
                      have hc0 : lookupKey (setKey bf "geometry" (Json.obj [])) "cells" =
                          lookupKey bf "cells" := lookup_setKey_ne _ _ _ _ (by decide)
                      cases hcell : lookupKey bf "cells" with
                      | none =>
                          refine enforceBlockPart_2D_main mf bf [] [] mf
                            (setKey bf "geometry" (Json.obj [])) template_obj tgf tcf
                            hEnsure1 hEnsure2 ?_ htg htc rfl rfl
                          rw [hc0, hcell]
                      | some cv =>
                          cases cv with
                          | obj cf =>
                              simp only [getAtPath, hcell] at hnz
                              cases hx : lookupKey cf "nz" with
                              | some v => rw [hx] at hnz; exact (nomatch hnz)
                              | none =>
                                  refine enforceBlockPart_2D_main mf bf [] cf mf
                                    (setKey bf "geometry" (Json.obj [])) template_obj tgf tcf
                                    hEnsure1 hEnsure2 ?_ htg htc rfl hx
                                  rw [hc0, hcell]
                          | null => simp [dictShapeOk, hcell] at hok
                          | bool b => simp [dictShapeOk, hcell] at hok
                          | int n => simp [dictShapeOk, hcell] at hok
                          | float q => simp [dictShapeOk, hcell] at hok
                          | str t => simp [dictShapeOk, hcell] at hok
                          | arr xs => simp [dictShapeOk, hcell] at hok
                  | some gv =>
                      cases gv with
                      | obj gf =>
                          have hEnsure2 : ensureObj bf "geometry" = some (gf, bf) := by
                            rw [ensureObj, hgeo]
                          simp only [getAtPath, hgeo] at hth
                          have hgt : lookupKey gf "thickness_2d_m" = none := by
                            cases hy : lookupKey gf "thickness_2d_m" with
                            | some v => rw [hy] at hth; exact (nomatch hth)
                            | none => rfl
                          cases hcell : lookupKey bf "cells" with
                          | none =>
                              exact enforceBlockPart_2D_main mf bf gf [] mf bf template_obj
                                tgf tcf hEnsure1 hEnsure2 (by rw [hcell]) htg htc hgt rfl
                          | some cv =>
                              cases cv with
                              | obj cf =>
                                  simp only [getAtPath, hcell] at hnz
                                  cases hx : lookupKey cf "nz" with
                                  | some v => rw [hx] at hnz; exact (nomatch hnz)
                                  | none =>
                                      exact enforceBlockPart_2D_main mf bf gf cf mf bf
                                        template_obj tgf tcf hEnsure1 hEnsure2
                                        (by rw [hcell]) htg htc hgt hx
                              | null => simp [dictShapeOk, hcell] at hok
                              | bool b => simp [dictShapeOk, hcell] at hok
                              | int n => simp [dictShapeOk, hcell] at hok
                              | float q => simp [dictShapeOk, hcell] at hok
                              | str t => simp [dictShapeOk, hcell] at hok
                              | arr xs => simp [dictShapeOk, hcell] at hok
                      | null => simp [dictShapeOk, hgeo] at hok
                      | bool b => simp [dictShapeOk, hgeo] at hok
                      | int n => simp [dictShapeOk, hgeo] at hok
                      | float q => simp [dictShapeOk, hgeo] at hok
                      | str t => simp [dictShapeOk, hgeo] at hok
                      | arr xs => simp [dictShapeOk, hgeo] at hok
              | null => simp [blockChainOk, hbm] at hok
              | bool b => simp [blockChainOk, hbm] at hok
              | int n => simp [blockChainOk, hbm] at hok
              | float q => simp [blockChainOk, hbm] at hok
              | str t => simp [blockChainOk, hbm] at hok
              | arr xs => simp [blockChainOk, hbm] at hok
      | null => simp [meshingChainOk, hms] at hok
      | bool b => simp [meshingChainOk, hms] at hok
      | int n => simp [meshingChainOk, hms] at hok
      | float q => simp [meshingChainOk, hms] at hok
      | str t => simp [meshingChainOk, hms] at hok
      | arr xs => simp [meshingChainOk, hms] at hok


/-- Witness for the amended C5: empty intent, template with numeric
thickness `0.003` and integer `nz = 6`; enforcement produces a numeric
thickness and copies `nz = 6` from the template. -/
theorem claim_C5_enforce_2d_witness :
    meshingChainOk [] = true ∧
    templateChainGet [("meshing", Json.obj [("blockMesh", Json.obj
        [("geometry", Json.obj [("thickness_2d_m", Json.float (0.003 : Rat))]),
         ("cells", Json.obj [("nz", Json.int 6)])])])] "blockMesh" "geometry" =
      some (Json.obj [("thickness_2d_m", Json.float (0.003 : Rat))]) ∧
    templateChainGet [("meshing", Json.obj [("blockMesh", Json.obj
        [("geometry", Json.obj [("thickness_2d_m", Json.float (0.003 : Rat))]),
         ("cells", Json.obj [("nz", Json.int 6)])])])] "blockMesh" "cells" =
      some (Json.obj [("nz", Json.int 6)]) ∧
    getAtPath (Json.obj ([] : JObj))
      ["meshing", "blockMesh", "geometry", "thickness_2d_m"] = none ∧
    getAtPath (Json.obj ([] : JObj)) ["meshing", "blockMesh", "cells", "nz"] = none ∧
    ((∃ v, getAtPath (Json.obj (enforce_dimension_mode [] (some "2D_extruded")
        [("meshing", Json.obj [("blockMesh", Json.obj
          [("geometry", Json.obj [("thickness_2d_m", Json.float (0.003 : Rat))]),
           ("cells", Json.obj [("nz", Json.int 6)])])])]))
        ["meshing", "blockMesh", "geometry", "thickness_2d_m"] = some v ∧
        isPyNumber v = true) ∧
     getAtPath (Json.obj (enforce_dimension_mode [] (some "2D_extruded")
        [("meshing", Json.obj [("blockMesh", Json.obj
          [("geometry", Json.obj [("thickness_2d_m", Json.float (0.003 : Rat))]),
           ("cells", Json.obj [("nz", Json.int 6)])])])]))
        ["meshing", "blockMesh", "cells", "nz"] =
      (match lookupKey [("nz", Json.int 6)] "nz" with
       | some v => if isPyInt v then some v else none
       | none => none)) :=
  ⟨rfl, rfl, rfl, rfl, rfl,
   claim_C5_enforce_2d [] [("meshing", Json.obj [("blockMesh", Json.obj
       [("geometry", Json.obj [("thickness_2d_m", Json.float (0.003 : Rat))]),
        ("cells", Json.obj [("nz", Json.int 6)])])])]
     [("thickness_2d_m", Json.float (0.003 : Rat))] [("nz", Json.int 6)]
     rfl rfl rfl rfl rfl⟩

end CFD
